import Mathlib

/-!
Verification of the witness-testimony-prep demo application.

This file is a shallow embedding, in Lean 4, of the core logic of the
repository: the usage ledger (`getSessionStats` in
`src/lib/storage/usage-storage.ts`), the upload limit checks
(`handleFileUpload` in the deposition and testimony tools), the document
type heuristics (`detectDocumentType`), the layered JSON parse-fallback
chain and the `generate-questions` API route (`parseJSONResponse`,
`generateFallbackQuestions`, `POST`), and the session-reset handlers.

Modelling conventions:
- JavaScript strings are modelled as `List Char`; the helper `chars`
  converts a Lean string literal.
- JavaScript `Date` values are modelled as rational timestamps; ISO
  strings are in an order-preserving bijection with their timestamps, so
  comparisons such as `now >= new Date(resetAt)` become `resetAt ≤ now`.
  The session window (`sessionHours`) is likewise an abstract duration
  added to the current time.
- JavaScript numbers (prices, costs) are modelled as rationals; the
  claims under study compare sums against thresholds, which is exact
  arithmetic in both models.
- `JSON.parse` is modelled by an executable fuel-based parser `jsonParse`
  into the `JsonVal` inductive; a thrown exception is `none`.
- React `useCallback` closures capture state at callback creation; the
  models therefore thread the captured ("stale") values separately from
  the persisted store, which mirrors the source exactly.
-/

/-- Convert a Lean string literal to the `List Char` representation used
for JavaScript strings throughout this file. -/
def chars (s : String) : List Char := s.toList

/-- JavaScript whitespace (the characters matched by `\s` and trimmed by
`String.prototype.trim`): ASCII whitespace, NBSP and the BOM. -/
def isJsWs (c : Char) : Bool :=
  [32, 9, 10, 13, 11, 12, 160, 65279].contains c.toNat

/-- Model of `String.prototype.trim`: drop JavaScript whitespace from
both ends. -/
def jsTrim (l : List Char) : List Char :=
  ((l.dropWhile isJsWs).reverse.dropWhile isJsWs).reverse

/-- A JSON value as produced by `JSON.parse`.  Numbers are exact
rationals (mantissa and decimal exponent are parsed without rounding). -/
inductive JsonVal where
  | null
  | bool (b : Bool)
  | num (q : ℚ)
  | str (s : List Char)
  | arr (items : List JsonVal)
  | obj (fields : List (List Char × JsonVal))
deriving Repr

/-- Skip JavaScript/JSON whitespace. -/
def skipWs (l : List Char) : List Char := l.dropWhile isJsWs

/-- Decimal digit test (JSON `0`-`9`, the same set as the regex `\d`). -/
def isDig (c : Char) : Bool := 48 ≤ c.toNat && c.toNat ≤ 57

/-- Split a leading run of decimal digits from the input. -/
def takeDigits : List Char → (List Char × List Char)
  | c :: r =>
      if isDig c then
        let (ds, rest) := takeDigits r
        (c :: ds, rest)
      else ([], c :: r)
  | [] => ([], [])

/-- Numeric value of a digit string. -/
def digitsVal (ds : List Char) : Nat :=
  ds.foldl (fun a c => 10 * a + (c.toNat - 48)) 0

/-- Value of a hexadecimal digit, if any. -/
def hexDigVal (c : Char) : Option Nat :=
  let n := c.toNat
  if n ≥ 48 && n ≤ 57 then some (n - 48)
  else if n ≥ 97 && n ≤ 102 then some (n - 87)
  else if n ≥ 65 && n ≤ 70 then some (n - 55)
  else none

/-- Single-character JSON string escapes. -/
def escCode (e : Char) : Option Nat :=
  match e with
  | 'n' => some 10
  | 't' => some 9
  | 'r' => some 13
  | 'b' => some 8
  | 'f' => some 12
  | _ => if e == '"' || e == '\\' || e == '/' then some e.toNat else none

/-- Decode one single-character escape into the escaped character. -/
def escChar (e : Char) : Option Char := (escCode e).map Char.ofNat

/-- Parse the body of a JSON string after the opening quote, returning
the decoded characters and the input after the closing quote. -/
def jsonStringRest (acc : List Char) : List Char → Option (List Char × List Char)
  | '"' :: r => some (acc.reverse, r)
  | '\\' :: 'u' :: a :: b :: c :: d :: r =>
      match hexDigVal a, hexDigVal b, hexDigVal c, hexDigVal d with
      | some va, some vb, some vc, some vd =>
          jsonStringRest (Char.ofNat (((va * 16 + vb) * 16 + vc) * 16 + vd) :: acc) r
      | _, _, _, _ => none
  | '\\' :: e :: r =>
      match escChar e with
      | some ch => jsonStringRest (ch :: acc) r
      | none => none
  | c :: r => if c.toNat < 32 then none else jsonStringRest (c :: acc) r
  | [] => none
termination_by l => l.length

/-- Parse a JSON number (sign, integer part without leading zeros,
optional fraction, optional exponent) into an exact rational. -/
def parseJsonNumber (l : List Char) : Option (ℚ × List Char) :=
  let (neg, l1) : Bool × List Char :=
    match l with
    | '-' :: r => (true, r)
    | _ => (false, l)
  let ipart : Option (List Char × List Char) :=
    match l1 with
    | '0' :: r =>
        match r with
        | c :: _ => if isDig c then none else some (['0'], r)
        | [] => some (['0'], [])
    | c :: _ =>
        if isDig c then some (takeDigits l1) else none
    | [] => none
  match ipart with
  | none => none
  | some (ids, l2) =>
      let fpart : Option (List Char × List Char) :=
        match l2 with
        | '.' :: r =>
            let (fs, l3) := takeDigits r
            if fs.isEmpty then none else some (fs, l3)
        | _ => some ([], l2)
      match fpart with
      | none => none
      | some (fds, l3) =>
          let epart : Option (Int × List Char) :=
            match l3 with
            | 'e' :: r | 'E' :: r =>
                let (esign, r1) : Bool × List Char :=
                  match r with
                  | '+' :: r2 => (false, r2)
                  | '-' :: r2 => (true, r2)
                  | _ => (false, r)
                let (eds, l4) := takeDigits r1
                if eds.isEmpty then none
                else some (if esign then -(digitsVal eds : Int) else (digitsVal eds : Int), l4)
            | _ => some (0, l3)
          match epart with
          | none => none
          | some (ev, l4) =>
              let mag : ℚ :=
                ((digitsVal ids : ℚ) + (digitsVal fds : ℚ) / (10 : ℚ) ^ fds.length) *
                  (10 : ℚ) ^ ev
              some (if neg then -mag else mag, l4)

mutual

/-- Fuel-based recursive-descent parser for a single JSON value; the
input must already start at a non-whitespace character. -/
def parseVal : Nat → List Char → Option (JsonVal × List Char)
  | 0, _ => none
  | Nat.succ fuel, l =>
      match l with
      | '{' :: r => parseObjRest fuel (skipWs r)
      | '[' :: r => parseArrRest fuel (skipWs r)
      | '"' :: r =>
          match jsonStringRest [] r with
          | some (s, r2) => some (.str s, r2)
          | none => none
      | _ =>
          if (chars "true").isPrefixOf l then some (.bool true, l.drop 4)
          else if (chars "false").isPrefixOf l then some (.bool false, l.drop 5)
          else if (chars "null").isPrefixOf l then some (.null, l.drop 4)
          else
            match parseJsonNumber l with
            | some (q, r) => some (.num q, r)
            | none => none

/-- Parse the inside of an array after `[` (whitespace already skipped). -/
def parseArrRest : Nat → List Char → Option (JsonVal × List Char)
  | 0, _ => none
  | Nat.succ fuel, l =>
      match l with
      | ']' :: r => some (.arr [], r)
      | _ => parseArrItems fuel l []

/-- Parse the comma-separated items of a non-empty array. -/
def parseArrItems : Nat → List Char → List JsonVal → Option (JsonVal × List Char)
  | 0, _, _ => none
  | Nat.succ fuel, l, acc =>
      match parseVal fuel (skipWs l) with
      | none => none
      | some (v, r) =>
          match skipWs r with
          | ',' :: r2 => parseArrItems fuel r2 (v :: acc)
          | ']' :: r2 => some (.arr (v :: acc).reverse, r2)
          | _ => none

/-- Parse the inside of an object after `{` (whitespace already skipped). -/
def parseObjRest : Nat → List Char → Option (JsonVal × List Char)
  | 0, _ => none
  | Nat.succ fuel, l =>
      match l with
      | '}' :: r => some (.obj [], r)
      | _ => parseObjItems fuel l []

/-- Parse the comma-separated members of a non-empty object. -/
def parseObjItems : Nat → List Char → List (List Char × JsonVal) →
    Option (JsonVal × List Char)
  | 0, _, _ => none
  | Nat.succ fuel, l, acc =>
      match skipWs l with
      | '"' :: r =>
          match jsonStringRest [] r with
          | none => none
          | some (k, r1) =>
              match skipWs r1 with
              | ':' :: r2 =>
                  match parseVal fuel (skipWs r2) with
                  | none => none
                  | some (v, r3) =>
                      match skipWs r3 with
                      | ',' :: r4 => parseObjItems fuel r4 ((k, v) :: acc)
                      | '}' :: r4 => some (.obj ((k, v) :: acc).reverse, r4)
                      | _ => none
              | _ => none
      | _ => none

end

/-- Model of `JSON.parse`: parse one JSON value with surrounding
whitespace allowed and nothing else; `none` models a thrown
`SyntaxError`. -/
def jsonParse (l : List Char) : Option JsonVal :=
  match parseVal (2 * l.length + 2) (skipWs l) with
  | some (v, rest) => if skipWs rest = [] then some v else none
  | none => none

/-- Keep the parse only when it produced a JSON array (the
`Array.isArray(parsed)` guard of every strategy). -/
def asJsonArray : Option JsonVal → Option (List JsonVal)
  | some (.arr items) => some items
  | _ => none

/-- Model of `replace(/^﻿/, '')`: drop one leading byte-order mark. -/
def stripBOM (l : List Char) : List Char :=
  match l with
  | c :: r => if c.toNat == 65279 then r else l
  | [] => []

/-- Model of `replace(/^```(?:json)?\s*\n?/i, '')`: if the input starts
with three backticks, drop them, an optional case-insensitive `json`,
and the following whitespace run (the greedy `\s*` already swallows the
optional newline). -/
def stripLeadFence (l : List Char) : List Char :=
  match l with
  | '`' :: '`' :: '`' :: r =>
      let r2 : List Char :=
        match r with
        | a :: b :: c :: d :: r3 =>
            if a.toLower == 'j' && b.toLower == 's' && c.toLower == 'o' && d.toLower == 'n'
            then r3 else r
        | _ => r
      r2.dropWhile isJsWs
  | _ => l

/-- Helper for the closing-fence pattern: the input is three backticks
followed only by whitespace up to the end of the string. -/
def fenceWsTail (l : List Char) : Bool :=
  match l with
  | a :: b :: c :: r => a == '`' && b == '`' && c == '`' && r.all isJsWs
  | _ => false

/-- The pattern `\n?```\s*$` matches at the head of the input: an
optional newline, three backticks, then only whitespace to the end. -/
def fenceTailMatch (l : List Char) : Bool :=
  (match l with
   | a :: r => a == '\n' && fenceWsTail r
   | [] => false) || fenceWsTail l

/-- Model of `replace(/\n?```\s*$/i, '')`: remove from the leftmost
position where the closing-fence pattern matches to the end of the
string (the match is anchored at `$`, so everything from the match
start is deleted). -/
def stripTrailFence : List Char → List Char
  | [] => []
  | c :: r => if fenceTailMatch (c :: r) then [] else c :: stripTrailFence r

/-- The cleaning pipeline of parse strategy 2 in `parseJSONResponse`
(`src/unnamed/part_003`, lines 99-111): trim, strip a byte-order mark,
strip an opening code fence, strip a closing code fence, trim again. -/
def strategy2Clean (l : List Char) : List Char :=
  jsTrim (stripTrailFence (stripLeadFence (stripBOM (jsTrim l))))

/-- Parse strategy 2: clean code fences, then strict-parse, keeping
arrays only. -/
def parseStrategy2 (l : List Char) : Option (List JsonVal) :=
  asJsonArray (jsonParse (strategy2Clean l))

/-- Does the whitespace-skipped remainder begin with an opening brace?
This decides whether `\[\s*\{` can continue matching after a `[`. -/
def bracketThenBrace (r : List Char) : Bool :=
  match r.dropWhile isJsWs with
  | '{' :: _ => true
  | _ => false

/-- Scan a reversed input for the reversed closing pattern `]\s*}` of
the strategy-3 regex; the first hit in the reversed list is the last
(greedy) hit in the original.  Returns how many reversed characters
precede the closing `]`. -/
def revCloseDepth : List Char → Option Nat
  | ']' :: r =>
      (match r.dropWhile isJsWs with
       | '}' :: _ => some 0
       | _ => (revCloseDepth r).map (· + 1))
  | _ :: r => (revCloseDepth r).map (· + 1)
  | [] => none

/-- Model of `content.match(/\[\s*\{[\s\S]*\}\s*\]/)`: the leftmost `[`
that is followed (after whitespace) by `{` starts the match, and the
greedy `[\s\S]*` extends it to the last `}\s*]` of the input; `none`
when the pattern matches nowhere. -/
def strategy3Span : List Char → Option (List Char)
  | [] => none
  | '[' :: r =>
      if bracketThenBrace r then
        match revCloseDepth r.reverse with
        | some d => some ('[' :: r.take (r.length - d))
        | none => strategy3Span r
      else strategy3Span r
  | _ :: r => strategy3Span r

/-- First index of a character in the input, if present. -/
def firstIdxOf (c : Char) : List Char → Option Nat
  | [] => none
  | a :: r => if a == c then some 0 else (firstIdxOf c r).map (· + 1)

/-- Last index of a character in the input, if present (model of
`String.prototype.lastIndexOf`). -/
def lastIdxOf (c : Char) (l : List Char) : Option Nat :=
  match firstIdxOf c l.reverse with
  | some d => some (l.length - 1 - d)
  | none => none

/-- Model of parse strategy 4: slice from the first `[` to the last `]`
when the latter comes strictly after the former. -/
def strategy4Span (l : List Char) : Option (List Char) :=
  match firstIdxOf '[' l, lastIdxOf ']' l with
  | some f, some t => if f < t then some ((l.drop f).take (t + 1 - f)) else none
  | _, _ => none

/-- Model of `parseJSONResponse` (`src/unnamed/part_003`, lines 90-138):
strict parse, then fence cleaning, then regex array extraction, then
bracket slicing; the first strategy producing a JSON array wins, and
`none` models the `return null` after all strategies fail. -/
def parseJSONResponse (l : List Char) : Option (List JsonVal) :=
  match asJsonArray (jsonParse l) with
  | some a => some a
  | none =>
      match parseStrategy2 l with
      | some a => some a
      | none =>
          match (strategy3Span l).bind (fun s => asJsonArray (jsonParse s)) with
          | some a => some a
          | none => (strategy4Span l).bind (fun s => asJsonArray (jsonParse s))

/-- The `SessionStats` record of `src/lib/types/demo-limits`
(re-exported in `src/lib/document-processor.ts`): cumulative document
count, storage bytes, session cost, and the start/reset timestamps.
Timestamps are rational numbers standing for the ISO strings of the
source (order-preserving). -/
structure SessionStats where
  documentsUploaded : Nat
  totalStorageUsed : Nat
  sessionPrice : ℚ
  sessionStartAt : ℚ
  sessionResetAt : ℚ
deriving Repr, DecidableEq

/-- Model of `getSessionResetTime`: the current time plus the configured
session window (`DEMO_LIMITS.pricing.sessionHours`). -/
def getSessionResetTime (now window : ℚ) : ℚ := now + window

/-- The default statistics record built at the top of `getSessionStats`. -/
def defaultStats (now window : ℚ) : SessionStats :=
  { documentsUploaded := 0
    totalStorageUsed := 0
    sessionPrice := 0
    sessionStartAt := now
    sessionResetAt := getSessionResetTime now window }

/-- Serialize a statistics record the way `JSON.stringify` lays it out
in localStorage (timestamps as numeric model values). -/
def statsToJson (st : SessionStats) : JsonVal :=
  .obj [ (chars "documentsUploaded", .num st.documentsUploaded)
       , (chars "totalStorageUsed", .num st.totalStorageUsed)
       , (chars "sessionPrice", .num st.sessionPrice)
       , (chars "sessionStartAt", .num st.sessionStartAt)
       , (chars "sessionResetAt", .num st.sessionResetAt) ]

/-- Property access on a parsed JSON value, as JavaScript member access:
the last binding wins for duplicate keys, `none` is `undefined`. -/
def getField (v : JsonVal) (key : List Char) : Option JsonVal :=
  match v with
  | .obj fields => (fields.reverse.find? (fun kv => kv.1 == key)).map (·.2)
  | _ => none

/-- Model of `new Date(x)` on a field value: only the numeric model
timestamps yield a valid date; everything else (including `undefined`)
is an invalid date, whose comparisons are all false. -/
def dateOfField : Option JsonVal → Option ℚ
  | some (.num q) => some q
  | _ => none

/-- What localStorage holds under the stats key: nothing, a blob that
`JSON.parse` rejects, or a parsed JSON value. -/
inductive StoredBlob where
  | missing
  | invalid
  | parsed (v : JsonVal)
deriving Repr

/-- Model of `getSessionStats` (`src/lib/storage/usage-storage.ts`,
lines 49-89) over the raw stored blob.  Returns the value produced for
the caller together with the new stored state.  The `catch` branch
(invalid JSON, or member access on a parsed `null`) returns the default
record without writing; a missing key writes and returns the default;
a due reset writes and returns the zeroed record; otherwise the parsed
value is returned as-is (the unchecked `as SessionStats` cast). -/
def getSessionStatsRaw (stored : StoredBlob) (now window : ℚ) :
    JsonVal × StoredBlob :=
  match stored with
  | .missing =>
      (statsToJson (defaultStats now window), .parsed (statsToJson (defaultStats now window)))
  | .invalid => (statsToJson (defaultStats now window), .invalid)
  | .parsed v =>
      match v with
      | .null => (statsToJson (defaultStats now window), .parsed .null)
      | _ =>
          match dateOfField (getField v (chars "sessionResetAt")) with
          | some resetAt =>
              if resetAt ≤ now then
                (statsToJson (defaultStats now window), .parsed (statsToJson (defaultStats now window)))
              else (v, .parsed v)
          | none => (v, .parsed v)

/-- Decode a JSON value into a well-formed statistics record, if it is
one: all five fields present with the expected numeric shapes. -/
def decodeStats (v : JsonVal) : Option SessionStats :=
  match dateOfField (getField v (chars "documentsUploaded")),
        dateOfField (getField v (chars "totalStorageUsed")),
        dateOfField (getField v (chars "sessionPrice")),
        dateOfField (getField v (chars "sessionStartAt")),
        dateOfField (getField v (chars "sessionResetAt")) with
  | some d, some t, some p, some s, some r =>
      if 0 ≤ d ∧ d.den = 1 ∧ 0 ≤ t ∧ t.den = 1 then
        some { documentsUploaded := d.num.toNat
               totalStorageUsed := t.num.toNat
               sessionPrice := p
               sessionStartAt := s
               sessionResetAt := r }
      else none
  | _, _, _, _, _ => none

/-- Lower-case a JavaScript string (model of `toLowerCase` for the ASCII
keywords used by the heuristics). -/
def lowerChars (l : List Char) : List Char := l.map Char.toLower

/-- Model of `String.prototype.includes`: the needle occurs as a
contiguous run somewhere in the haystack. -/
def includes (hay needle : List Char) : Bool :=
  match hay with
  | [] => needle.isEmpty
  | c :: r => needle.isPrefixOf (c :: r) || includes r needle

/-- The regex `ex[-_]?\d+` matches at the head of the input (the input
is already lower-cased, absorbing the `i` flag): `ex`, one optional `-`
or `_`, then a digit. -/
def exNumAt : List Char → Bool
  | 'e' :: 'x' :: r =>
      (match r with
       | '-' :: d :: _ => isDig d
       | '_' :: d :: _ => isDig d
       | d :: _ => isDig d
       | [] => false)
  | _ => false

/-- Model of `/ex[-_]?\d+/i.test(lowerName)`: the pattern matches at
some position of the input. -/
def exNumContains : List Char → Bool
  | [] => false
  | c :: r => exNumAt (c :: r) || exNumContains r

/-- Detected document type of a deposition document
(`DepositionDocument['type']`). -/
inductive DocumentType where
  | transcript
  | prior_testimony
  | exhibit
  | case_file
  | other
deriving DecidableEq, Repr

/-- Model of `detectDocumentType` (`src/unnamed/part_000`, lines 55-75):
ordered keyword heuristics over the lower-cased filename and optional
content, first match wins, defaulting to `other`. -/
def detectDocumentType (filename : List Char) (content : Option (List Char)) :
    DocumentType :=
  let lowerName := lowerChars filename
  let lowerContent := lowerChars (content.getD [])
  if includes lowerName (chars "transcript") || includes lowerName (chars "deposition") ||
     includes lowerContent (chars "q:") || includes lowerContent (chars "a:") then
    .transcript
  else if includes lowerName (chars "testimony") || includes lowerName (chars "statement") ||
     includes lowerContent (chars "sworn") || includes lowerContent (chars "under oath") then
    .prior_testimony
  else if includes lowerName (chars "exhibit") || exNumContains lowerName then
    .exhibit
  else if includes lowerName (chars "complaint") || includes lowerName (chars "motion") ||
     includes lowerName (chars "brief") || includes lowerName (chars "filing") then
    .case_file
  else .other

/-- A classification rule as described by the spec: a hit predicate over
(filename, content) and the resulting type. -/
structure ClassRule where
  hit : List Char → Option (List Char) → Bool
  result : DocumentType

/-- The generic ordered-rule classifier of the spec: try the rules in
order, first hit wins, otherwise the default. -/
def classifyFirstMatch : List ClassRule → DocumentType → List Char →
    Option (List Char) → DocumentType
  | [], dflt, _, _ => dflt
  | r :: rs, dflt, f, c =>
      if r.hit f c then r.result else classifyFirstMatch rs dflt f c

/-- Transcript rule of the spec: filename keywords first, then content
keywords. -/
def specTranscriptHit (f : List Char) (c : Option (List Char)) : Bool :=
  includes (lowerChars f) (chars "transcript") ||
  includes (lowerChars f) (chars "deposition") ||
  includes (lowerChars (c.getD [])) (chars "q:") ||
  includes (lowerChars (c.getD [])) (chars "a:")

/-- Prior-testimony rule of the spec. -/
def specPriorTestimonyHit (f : List Char) (c : Option (List Char)) : Bool :=
  includes (lowerChars f) (chars "testimony") ||
  includes (lowerChars f) (chars "statement") ||
  includes (lowerChars (c.getD [])) (chars "sworn") ||
  includes (lowerChars (c.getD [])) (chars "under oath")

/-- Exhibit rule of the spec (filename keywords only). -/
def specExhibitHit (f : List Char) (_c : Option (List Char)) : Bool :=
  includes (lowerChars f) (chars "exhibit") || exNumContains (lowerChars f)

/-- Case-file rule of the spec (filename keywords only). -/
def specCaseFileHit (f : List Char) (_c : Option (List Char)) : Bool :=
  includes (lowerChars f) (chars "complaint") ||
  includes (lowerChars f) (chars "motion") ||
  includes (lowerChars f) (chars "brief") ||
  includes (lowerChars f) (chars "filing")

/-- The spec's rule list in precedence order: transcript,
prior_testimony, exhibit, case_file; the default is `other`. -/
def specClassRules : List ClassRule :=
  [ ⟨specTranscriptHit, .transcript⟩
  , ⟨specPriorTestimonyHit, .prior_testimony⟩
  , ⟨specExhibitHit, .exhibit⟩
  , ⟨specCaseFileHit, .case_file⟩ ]

/-- Which demo limit was hit (the `limitReached` UI state of both
tools). -/
inductive LimitKind where
  | priceLimit
  | documentLimit
deriving DecidableEq, Repr

/-- User-facing messages recorded by `showError` during an upload batch,
identified structurally (the source interpolates the limits into prose). -/
inductive UploadMsg where
  | docLimitBatch
  | docLimitLoop
  | fileTooBig (name : List Char)
deriving DecidableEq, Repr

/-- An uploaded file: display name and size in bytes.  File contents and
read errors are not modelled; every file is readable (the claims under
study concern the limit checks). -/
structure FileIn where
  name : List Char
  size : Nat
deriving DecidableEq, Repr

/-- Result of an upload batch: the persisted document count afterwards,
the recorded messages in display order, and the `limitReached` state. -/
structure UploadOutcome where
  storedDocs : Nat
  messages : List UploadMsg
  limitReached : Option LimitKind
deriving DecidableEq, Repr

/-- The per-file loop of the deposition `handleFileUpload`
(`src/unnamed/part_000`, lines 199-248).  `staleCount` is
`session.documents.length` read from the React closure: it is fixed for
the whole batch even though the persisted store (`stored`, grown by
`addDepositionDocument`, which per spec §4.3 appends the document)
advances.  The in-loop limit check compares the stale value and `break`s
with a message; an oversized file records a message and `continue`s. -/
def depoUploadLoop (staleCount maxDocs maxSize : Nat) :
    List FileIn → Nat → List UploadMsg → UploadOutcome
  | [], stored, msgs => ⟨stored, msgs.reverse, none⟩
  | f :: rest, stored, msgs =>
      if maxDocs ≤ staleCount then ⟨stored, (UploadMsg.docLimitLoop :: msgs).reverse, none⟩
      else if maxSize < f.size then
        depoUploadLoop staleCount maxDocs maxSize rest stored (.fileTooBig f.name :: msgs)
      else depoUploadLoop staleCount maxDocs maxSize rest (stored + 1) msgs

/-- Model of the deposition `handleFileUpload` (`src/unnamed/part_000`,
lines 186-251): a batch-level document-count check that sets
`limitReached`, then the per-file loop. `initialCount` is both the
closure's `session.documents.length` and the persisted count at entry. -/
def depoHandleFileUpload (initialCount maxDocs maxSize : Nat)
    (files : List FileIn) : UploadOutcome :=
  if maxDocs ≤ initialCount then ⟨initialCount, [.docLimitBatch], some .documentLimit⟩
  else depoUploadLoop initialCount maxDocs maxSize files initialCount []

/-- The per-file loop of the testimony `handleFileUpload`
(`src/unnamed/part_001`, lines 173-250): only the file-size check is
performed per file; `addDocument` (spec §4.3, appends) runs before text
extraction, so the persisted count grows for every file within the size
limit, including files whose later processing fails. -/
def testimonyUploadLoop (maxSize : Nat) :
    List FileIn → Nat → List UploadMsg → UploadOutcome
  | [], stored, msgs => ⟨stored, msgs.reverse, none⟩
  | f :: rest, stored, msgs =>
      if maxSize < f.size then
        testimonyUploadLoop maxSize rest stored (.fileTooBig f.name :: msgs)
      else testimonyUploadLoop maxSize rest (stored + 1) msgs

/-- Model of the testimony `handleFileUpload` (`src/unnamed/part_001`,
lines 160-255): one document-count check before the batch (setting
`limitReached` without a message), then the per-file loop. -/
def testimonyHandleFileUpload (initialCount maxDocs maxSize : Nat)
    (files : List FileIn) : UploadOutcome :=
  if maxDocs ≤ initialCount then ⟨initialCount, [], some .documentLimit⟩
  else testimonyUploadLoop maxSize files initialCount []

/-- Usage counters read by the deprecated OCR limit service. -/
structure OcrUsage where
  sessionDocuments : Nat
  dailyPages : Nat
deriving DecidableEq, Repr

/-- The `DEMO_LIMITS.ocr` block consulted by the deprecated OCR limit
service. -/
structure OcrLimits where
  maxFileSize : Nat
  maxDocumentsPerSession : Nat
  maxPagesPerDocument : Nat
  maxPagesPerDay : Nat
deriving DecidableEq, Repr

/-- Which check produced a deny reason in the OCR limit service (the
source builds prose strings from these cases). -/
inductive OcrDenyReason where
  | fileSize
  | docCount
  | pagesPerDoc
  | dailyPages
deriving DecidableEq, Repr

/-- The `LimitCheckResult` shape: an allow flag and, when denied, the
reason of the failing check. -/
structure LimitCheckResult where
  allowed : Bool
  reason : Option OcrDenyReason
deriving DecidableEq, Repr

/-- Model of `OCRLimitService.checkFileSizeAllowed`
(`src/lib/demo-limits/ocr-limit-service.ts.bak`, lines 23-39). -/
def checkFileSizeAllowed (limits : OcrLimits) (fileSize : Nat) : LimitCheckResult :=
  if limits.maxFileSize < fileSize then ⟨false, some .fileSize⟩ else ⟨true, none⟩

/-- Model of `OCRLimitService.checkDocumentUploadAllowed` (lines 44-64). -/
def checkDocumentUploadAllowed (limits : OcrLimits) (usage : OcrUsage) :
    LimitCheckResult :=
  if limits.maxDocumentsPerSession ≤ usage.sessionDocuments then ⟨false, some .docCount⟩
  else ⟨true, none⟩

/-- Model of `OCRLimitService.checkPagesAllowed` (lines 69-103). -/
def checkPagesAllowed (limits : OcrLimits) (usage : OcrUsage) (pageCount : Nat) :
    LimitCheckResult :=
  if limits.maxPagesPerDocument < pageCount then ⟨false, some .pagesPerDoc⟩
  else if limits.maxPagesPerDay < usage.dailyPages + pageCount then ⟨false, some .dailyPages⟩
  else ⟨true, none⟩

/-- Model of `OCRLimitService.checkUploadAllowed` (lines 108-122): file
size, then document count, then page limits; the first failing check's
result is returned. -/
def checkUploadAllowed (limits : OcrLimits) (usage : OcrUsage)
    (fileSize estimatedPages : Nat) : LimitCheckResult :=
  let sizeCheck := checkFileSizeAllowed limits fileSize
  if !sizeCheck.allowed then sizeCheck
  else
    let docCheck := checkDocumentUploadAllowed limits usage
    if !docCheck.allowed then docCheck
    else
      let pageCheck := checkPagesAllowed limits usage estimatedPages
      if !pageCheck.allowed then pageCheck
      else ⟨true, none⟩

/-- A document as sent to the generate-questions route: display name and
optional extracted text. -/
structure DocIn where
  name : List Char
  content : Option (List Char)
deriving DecidableEq, Repr

/-- A `CrossExamQuestion` as returned by the testimony route.  The
`id` field (a fresh `uuidv4` per question) is omitted: it is random and
no claim concerns it. -/
structure CrossExamQuestion where
  question : List Char
  category : List Char
  difficulty : List Char
  suggestedApproach : Option (List Char)
  weakPoint : Option (List Char)
  followUpQuestions : Option (List (List Char))
  documentReference : Option (List Char)
deriving DecidableEq, Repr

/-- The category enumeration accepted by `validateCategory`. -/
def validCategories : List (List Char) :=
  [ chars "timeline", chars "credibility", chars "inconsistency"
  , chars "foundation", chars "impeachment", chars "general" ]

/-- The difficulty enumeration accepted by `validateDifficulty`. -/
def validDifficulties : List (List Char) :=
  [chars "easy", chars "medium", chars "hard"]

/-- Model of `validateCategory` (`src/unnamed/part_003`, lines 349-352). -/
def validateCategory (category : List Char) : List Char :=
  if validCategories.contains category then category else chars "general"

/-- Model of `validateDifficulty` (lines 354-357). -/
def validateDifficulty (difficulty : List Char) : List Char :=
  if validDifficulties.contains difficulty then difficulty else chars "medium"

/-- JavaScript truthiness of a field value (`none` is `undefined`). -/
def jsTruthy : Option JsonVal → Bool
  | none => false
  | some .null => false
  | some (.bool b) => b
  | some (.num q) => !(q == 0)
  | some (.str s) => !s.isEmpty
  | some (.arr _) => true
  | some (.obj _) => true

/-- Decimal rendering of an integer (used by `String(...)` on numbers). -/
def intChars (i : Int) : List Char :=
  if i < 0 then '-' :: Nat.toDigits 10 i.natAbs else Nat.toDigits 10 i.natAbs

/-- Model of the JavaScript `String(...)` coercion on a JSON value.
Rendering of non-integer numbers and of arrays is abbreviated (marked
with brackets): only the shape matters to the claims, never these
spellings. -/
def jsToString (v : JsonVal) : List Char :=
  match v with
  | .str s => s
  | .bool true => chars "true"
  | .bool false => chars "false"
  | .null => chars "null"
  | .num q => if q.den = 1 then intChars q.num else chars "[number]"
  | .arr _ => chars "[array]"
  | .obj _ => chars "[object Object]"

/-- Model of `String(field || default)`: the default on a falsy field,
otherwise the string coercion of the value. -/
def strOrDefault (field : Option JsonVal) (dflt : List Char) : List Char :=
  if jsTruthy field then
    match field with
    | some v => jsToString v
    | none => dflt
  else dflt

/-- Model of `field ? String(field) : undefined`. -/
def strOrUndef (field : Option JsonVal) : Option (List Char) :=
  if jsTruthy field then field.map jsToString else none

/-- Build one question record from a parsed array item
(`src/unnamed/part_003`, lines 426-440): coerce each field, validating
category and difficulty. -/
def buildQuestion (q : JsonVal) : CrossExamQuestion :=
  { question := strOrDefault (getField q (chars "question")) (chars "Question not available")
    category := validateCategory (strOrDefault (getField q (chars "category")) (chars "general"))
    difficulty := validateDifficulty (strOrDefault (getField q (chars "difficulty")) (chars "medium"))
    suggestedApproach := strOrUndef (getField q (chars "suggestedApproach"))
    weakPoint := strOrUndef (getField q (chars "weakPoint"))
    followUpQuestions :=
      match getField q (chars "followUpQuestions") with
      | some (.arr items) => some (items.map jsToString)
      | _ => none
    documentReference := strOrUndef (getField q (chars "documentReference")) }

/-- Map the first twenty parsed items to question records.  A `null`
item makes the JavaScript member accesses throw a TypeError, which the
model reports as `none`; the throw happens inside the route's inner
`try`, so its `catch` absorbs it and the route substitutes the fallback
set (see `generateQuestionsPOST`). -/
def buildQuestions (items : List JsonVal) : Option (List CrossExamQuestion) :=
  if items.any (fun v => match v with | .null => true | _ => false) then none
  else some (items.map buildQuestion)

/-- Helper to build one static fallback question (all prose fields are
present on every entry of the source list). -/
def fbq (q cat diff sa wp : String) (fu : List String) (dr : List Char) :
    CrossExamQuestion :=
  { question := chars q
    category := chars cat
    difficulty := chars diff
    suggestedApproach := some (chars sa)
    weakPoint := some (chars wp)
    followUpQuestions := some (fu.map chars)
    documentReference := some dr }

/-- Model of `documents.map(d => d.name).join(', ') || 'the documents'`. -/
def fallbackDocNames (documents : List DocIn) : List Char :=
  let j := List.intercalate (chars ", ") (documents.map (·.name))
  if j.isEmpty then chars "the documents" else j

/-- Model of `generateFallbackQuestions` (`src/unnamed/part_003`, lines
141-347): the static list of twenty canned questions (fifteen
document-flavoured, five general), with the joined document names as
reference.  The `witnessName` parameter is accepted, and unused, exactly
as in the source body. -/
def generateFallbackQuestions (_witnessName : List Char) (documents : List DocIn) :
    List CrossExamQuestion :=
  let docNames := fallbackDocNames documents
  let gce := chars "General Cross-Examination"
  [ fbq "You\x27ve reviewed documents related to this case. Can you tell us exactly when you first became aware of the events described?"
      "timeline" "medium" "Be specific about dates and times. If uncertain, say so."
      "Timeline inconsistencies"
      ["What were you doing at that time?", "Who else was present?"] docNames
  , fbq "Looking at the documents you\x27ve reviewed, can you identify any statements that you now believe may have been inaccurate?"
      "credibility" "hard" "If there are inaccuracies, acknowledge them. Honesty builds credibility."
      "Prior inconsistent statements"
      ["Why didn\x27t you correct this earlier?", "What other statements might need revision?"] docNames
  , fbq "You mentioned specific details in your statement. How can you be so certain about these details after all this time?"
      "credibility" "medium" "Explain what makes certain memories stand out."
      "Memory reliability"
      ["Did you take notes at the time?", "Have you discussed these events with anyone?"] docNames
  , fbq "Based on the documents in this case, there appear to be gaps in the timeline. Can you explain what happened during these periods?"
      "timeline" "medium" "If you don\x27t know, say so. Don\x27t speculate."
      "Incomplete knowledge"
      ["Were you present during this time?", "Who might have information about this period?"] docNames
  , fbq "The documents suggest a particular sequence of events. Do you agree with that sequence, or do you recall it differently?"
      "inconsistency" "hard" "If you disagree, explain specifically what you recall differently and why."
      "Contradicting documentary evidence"
      ["What specifically do you recall differently?", "Why should your memory be trusted over the documents?"] docNames
  , fbq "Were you under any stress or distraction at the time of the events described in these documents?"
      "foundation" "medium" "Acknowledge any factors that might have affected your perception."
      "Impaired observation"
      ["How might that have affected what you observed?", "Were you taking any medications?"] docNames
  , fbq "Can you explain your role in the events documented in the case materials?"
      "foundation" "easy" "Clearly explain your involvement and the basis for your knowledge."
      "Limited firsthand knowledge"
      ["Were you directly involved?", "How do you have knowledge of what you\x27re testifying about?"] docNames
  , fbq "The documents reference specific communications. Did you keep copies of all relevant communications?"
      "foundation" "medium" "Explain your document retention practices honestly."
      "Missing evidence"
      ["Why didn\x27t you keep copies?", "What happened to those communications?"] docNames
  , fbq "Is there anything in these documents that you believe is false or misleading?"
      "inconsistency" "hard" "If you believe something is false, explain specifically what and why."
      "Challenging documentary evidence"
      ["How do you know it\x27s false?", "Do you have evidence to support your claim?"] docNames
  , fbq "Who else was present that could corroborate your account?"
      "foundation" "medium" "Identify other witnesses who can support your testimony."
      "Lack of corroboration"
      ["Have you spoken with them about this case?", "Would they agree with your version?"] docNames
  , fbq "How soon after the events did you first document your recollection?"
      "timeline" "medium" "Explain when and how you recorded your memories."
      "Delayed documentation affects reliability"
      ["Why did you wait?", "What prompted you to finally document it?"] docNames
  , fbq "Have you reviewed these documents with anyone before today\x27s testimony?"
      "credibility" "easy" "Be honest about document review. It\x27s normal to prepare."
      "Potential for coached testimony"
      ["Who did you review them with?", "Did anyone point out specific things you should remember?"] docNames
  , fbq "Is there any information relevant to this case that is NOT contained in these documents?"
      "foundation" "hard" "Disclose any relevant information not in the documents."
      "Incomplete documentary record"
      ["Why wasn\x27t that documented?", "Who else knows about this?"] docNames
  , fbq "Looking at the specific details in the documents, how do you explain any discrepancies between what\x27s written and what you\x27re testifying to today?"
      "inconsistency" "hard" "Address discrepancies directly."
      "Documentary contradictions"
      ["Which version is correct?", "Were you truthful then or now?"] docNames
  , fbq "Were you consulted before any of the actions described in the documents occurred?"
      "foundation" "medium" "Be clear about your level of involvement."
      "Limited involvement or knowledge"
      ["Did you have any input?", "Did you express any objections?"] docNames
  , fbq "How did you prepare for your testimony today?"
      "general" "easy" "Be honest about preparation. It\x27s normal to review documents with counsel."
      "May suggest coaching"
      ["Who did you meet with to prepare?", "How many times did you meet?"] gce
  , fbq "Are you being compensated in any way for your testimony, or do you have any financial interest in the outcome?"
      "general" "easy" "Answer directly."
      "Potential bias"
      ["How much are you being paid?", "Does compensation depend on the outcome?"] gce
  , fbq "What is your relationship to the parties in this case?"
      "general" "easy" "Describe relationships factually without editorializing."
      "Potential bias based on relationships"
      ["How long have you known them?", "Have you had any conflicts with them?"] gce
  , fbq "How would you describe your memory in general? Is there anything about your testimony today that you\x27re not completely certain about?"
      "general" "medium" "Be honest about your memory capabilities."
      "Self-assessment of reliability"
      ["What specifically are you uncertain about?", "Have you forgotten important details before?"] gce
  , fbq "Have you ever given testimony that was later found to be inaccurate or that you needed to correct?"
      "general" "hard" "Answer honestly. If yes, explain the circumstances."
      "Prior credibility issues"
      ["What were the circumstances?", "How did you discover the inaccuracy?"] gce ]

/-- Outcome of the remote `chatCompletion` call: a thrown error (network
failure or non-2xx) or the returned message content. -/
inductive LlmOutcome where
  | fail
  | ok (content : List Char)
deriving DecidableEq, Repr

/-- Response of the testimony generate-questions route.  `badRequest`
is a 400 with an error message; `serverError` is the outer-catch 500,
which only a malformed request body can reach and which the model's
typed inputs therefore never produce; the success payload carries the
questions, the cost, the processed character count, and the fallback
flag.  No variant carries a `limitReached` field: no code path of the
route produces one. -/
inductive GenResponse where
  | badRequest (msg : List Char)
  | serverError
  | ok (questions : List CrossExamQuestion) (cost : ℚ) (charsProcessed : Nat)
      (usedFallback : Bool)
deriving DecidableEq, Repr

/-- The system prompt of the route.  Its prose (a long instruction
block interpolating the witness name) is abbreviated: only its length
feeds the cost heuristic, and no claim depends on that value. -/
def getQuestionGenerationPrompt (witnessName : List Char) : List Char :=
  chars "SYSTEM PROMPT FOR " ++ witnessName

/-- One document block of the user prompt (lines 380-385). -/
def docContextEntry (d : DocIn) : List Char :=
  chars "=== DOCUMENT: " ++ d.name ++ chars " ===\n" ++
    d.content.getD (chars "[Content not available]") ++ chars "\n=== END DOCUMENT ==="

/-- The user prompt (lines 387-394), with the instruction prose
abbreviated as for the system prompt. -/
def userPromptFor (caseName witnessName : List Char) (documents : List DocIn) :
    List Char :=
  chars "Case: " ++ caseName ++ chars "\nWitness Name: " ++ witnessName ++
    chars "\n\nDOCUMENTS TO ANALYZE:\n" ++
    List.intercalate (chars "\n\n") (documents.map docContextEntry)

/-- Model of the testimony generate-questions `POST`
(`src/unnamed/part_003`, lines 360-467): validate the request, call the
model, price the exchanged characters, run the parse-fallback chain,
coerce and cap the questions, and substitute the static fallback set
when nothing was produced.  A TypeError thrown by the question mapping
(a `null` array item) is raised inside the inner `try`, so its `catch`
absorbs it, `questions` stays empty, and the route still answers 200
with the fallback set and `usedFallback = true`.  The route performs no
comparison against `sessionPriceLimit` or any other limit. -/
def generateQuestionsPOST (witnessName caseName : List Char)
    (documents : List DocIn) (llm : LlmOutcome)
    (pricePerThousandChars : ℚ) : GenResponse :=
  if witnessName.isEmpty || caseName.isEmpty then
    .badRequest (chars "witnessName and caseName are required")
  else if documents.isEmpty then
    .badRequest (chars "No documents provided. Please upload case materials first.")
  else
    match llm with
    | .fail =>
        .ok (generateFallbackQuestions witnessName documents) 0 0 true
    | .ok content =>
        let sysP := getQuestionGenerationPrompt witnessName
        let userP := userPromptFor caseName witnessName documents
        let charsP := (sysP ++ userP ++ content).length
        let cost := (charsP : ℚ) / 1000 * pricePerThousandChars
        let parsedQs : Option (List CrossExamQuestion) :=
          if content.isEmpty then some []
          else
            match parseJSONResponse content with
            | some items =>
                if 0 < items.length then buildQuestions (items.take 20) else some []
            | none => some []
        match parsedQs with
        | none =>
            .ok (generateFallbackQuestions witnessName documents) cost charsP true
        | some qs =>
            if qs.isEmpty then
              .ok (generateFallbackQuestions witnessName documents) cost charsP true
            else .ok qs cost charsP false

/-- What the testimony client shows after `handleGenerateQuestions`
(`src/unnamed/part_001`, lines 258-308). -/
inductive ClientGenOutcome where
  | deniedPriceLimit
  | errorBanner
  | success (questions : List CrossExamQuestion)
deriving DecidableEq, Repr

/-- Model of the client `handleGenerateQuestions`: on a non-ok response
the `data.limitReached` branch is tested first — but no error response
of the route carries that field, so the branch never fires and the
client falls back to the error banner; on success the returned cost is
added to the ledger (`incrementSessionPrice`). -/
def clientHandleGenerateQuestions (stats : SessionStats) (resp : GenResponse) :
    ClientGenOutcome × SessionStats :=
  match resp with
  | .badRequest _ => (.errorBanner, stats)
  | .serverError => (.errorBanner, stats)
  | .ok qs cost _ _ =>
      let stats2 :=
        if cost ≠ 0 then { stats with sessionPrice := stats.sessionPrice + cost }
        else stats
      if qs.isEmpty then (.errorBanner, stats2) else (.success qs, stats2)

/-- The spec's price evaluator (§4.2, §8): deny exactly when the current
cost plus the proposed delta exceeds the session price limit.  This is
the behaviour the claims ascribe to the code; the code contains no such
comparison. -/
def specPriceCheckDenies (currentCost delta priceLimit : ℚ) : Bool :=
  priceLimit < currentCost + delta

/-- Wizard steps of the testimony tool (`AppStep` in
`src/unnamed/part_001`). -/
inductive TStep where
  | setup
  | documents
  | questions
  | practice
  | review
deriving DecidableEq, Repr

/-- Wizard steps of the deposition tool (`AppStep` in
`src/unnamed/part_000`). -/
inductive DStep where
  | setup
  | documents
  | analysis
  | questions
  | outline
deriving DecidableEq, Repr

/-- A persisted testimony practice session (the fields relevant to the
reset behaviour; ids are naturals standing for the uuid strings). -/
structure TSession where
  id : Nat
  witnessName : List Char
  caseName : List Char
  documents : List DocIn
  questions : List CrossExamQuestion
  practiceHistory : List (List Char)
deriving DecidableEq, Repr

/-- The localStorage-backed testimony session store, keyed by session
id. -/
def TStore := List (Nat × TSession)

/-- Look a session up by id. -/
def tStoreGet (store : TStore) (id : Nat) : Option TSession :=
  (store.find? (fun kv => kv.1 == id)).map (·.2)

/-- Modelled from the spec: `delete(id)` of the Session Store contract
(§4.3) — the `session-storage` module itself is not under `src/`, only
its callers are.  Deleting removes the record stored under the id. -/
def deleteSession (id : Nat) (store : TStore) : TStore :=
  store.filter (fun kv => !(kv.1 == id))

/-- In-memory component state of the testimony tool (the `useState`
pieces cleared by `resetToSetup`). -/
structure TState where
  session : Option TSession
  currentStep : TStep
  witnessName : List Char
  caseName : List Char
  currentQuestionIndex : Nat
  witnessResponse : List Char
  lastAIResponse : Option (List Char)
  showFeedback : Bool
  errorMsg : Option (List Char)
  limitReached : Option LimitKind
  priceUsed : ℚ
  documentsUsed : Nat
deriving DecidableEq, Repr

/-- Read the display counters from a raw ledger value; a blob without
the stats shape yields the zeroed defaults (the source would read
`undefined` fields here; no claim depends on that corner). -/
def displayCounters (statsJson : JsonVal) (now window : ℚ) : ℚ × Nat :=
  let st := (decodeStats statsJson).getD (defaultStats now window)
  (st.sessionPrice, st.documentsUploaded)

/-- Model of the testimony `resetToSetup` (`src/unnamed/part_001`, lines
119-138): delete the persisted session record, clear every in-memory
field, and re-read the display counters from the usage ledger (which is
otherwise untouched). -/
def resetToSetupTestimony (st : TState) (store : TStore) (ledger : StoredBlob)
    (now window : ℚ) : TState × TStore × StoredBlob :=
  let store2 :=
    match st.session with
    | some s => deleteSession s.id store
    | none => store
  let (statsJson, ledger2) := getSessionStatsRaw ledger now window
  let (price, docs) := displayCounters statsJson now window
  ({ session := none
     currentStep := .setup
     witnessName := []
     caseName := []
     currentQuestionIndex := 0
     witnessResponse := []
     lastAIResponse := none
     showFeedback := false
     errorMsg := none
     limitReached := none
     priceUsed := price
     documentsUsed := docs }, store2, ledger2)

/-- A persisted deposition session (fields relevant to reset). -/
structure DSession where
  id : Nat
  deponentName : List Char
  caseName : List Char
  caseNumber : Option (List Char)
  documents : List DocIn
deriving DecidableEq, Repr

/-- The deposition session store, keyed by session id. -/
def DStore := List (Nat × DSession)

/-- Look a deposition session up by id. -/
def dStoreGet (store : DStore) (id : Nat) : Option DSession :=
  (store.find? (fun kv => kv.1 == id)).map (·.2)

/-- In-memory component state of the deposition tool. -/
structure DState where
  session : Option DSession
  currentStep : DStep
  deponentName : List Char
  caseName : List Char
  caseNumber : List Char
  errorMsg : Option (List Char)
  limitReached : Option LimitKind
  priceUsed : ℚ
  documentsUsed : Nat
  expandedQuestions : List Nat
  selectedTopic : Option (List Char)
  selectedPriority : Option (List Char)
deriving DecidableEq, Repr

/-- Model of the deposition `resetToSetup` (`src/unnamed/part_000`,
lines 164-183): clear every in-memory field, re-read the display
counters, and remove the `wtp_current_deposition_session` pointer key —
the function calls no delete on the deposition session store, so the
persisted record under the session id is left in place. -/
def resetToSetupDeposition (_st : DState) (store : DStore)
    (_currentPointer : Option Nat) (ledger : StoredBlob) (now window : ℚ) :
    DState × DStore × Option Nat × StoredBlob :=
  let (statsJson, ledger2) := getSessionStatsRaw ledger now window
  let (price, docs) := displayCounters statsJson now window
  ({ session := none
     currentStep := .setup
     deponentName := []
     caseName := []
     caseNumber := []
     errorMsg := none
     limitReached := none
     priceUsed := price
     documentsUsed := docs
     expandedQuestions := []
     selectedTopic := none
     selectedPriority := none }, store, none, ledger2)

/-- The code-fence wrapper of the C8 claim: the payload between
```` ```json ```` and ```` ``` ```` lines. -/
def fenceWrap (s : List Char) : List Char :=
  chars "```json\n" ++ s ++ chars "\n```"

/-- Discriminator: the client outcome is the price-limit denial state. -/
def isDeniedPrice : ClientGenOutcome → Bool
  | .deniedPriceLimit => true
  | _ => false

/-- Discriminator: the client outcome carries generated questions. -/
def isSuccessOutcome : ClientGenOutcome → Bool
  | .success _ => true
  | _ => false

/-- Helper lemma: dropping whitespace does nothing when the head is not
whitespace. -/
theorem dropWhile_cons_not_ws {c : Char} (l : List Char) (h : isJsWs c = false) :
    (c :: l).dropWhile isJsWs = c :: l := by
  simp [List.dropWhile, h]

/-- Helper lemma: the fenced wrapper in explicit character form. -/
theorem fenceWrap_eq (s : List Char) :
    fenceWrap s =
      '`' :: '`' :: '`' :: 'j' :: 's' :: 'o' :: 'n' :: '\n' ::
        (s ++ ['\n', '`', '`', '`']) := by
  simp [fenceWrap, chars]

/-- Helper lemma: a closing-fence whitespace tail never occurs strictly
before the appended final fence, because the final backticks are not
whitespace. -/
theorem fenceWsTail_append_false (m : List Char) :
    fenceWsTail (m ++ ['\n', '`', '`', '`']) = false := by
  match m with
  | [] => rfl
  | [a] =>
      simp only [List.cons_append, List.nil_append, fenceWsTail]
      cases h : a == '`' <;> simp [h]
  | [a, b] =>
      simp only [List.cons_append, List.nil_append, fenceWsTail]
      cases h : a == '`' <;> cases h2 : b == '`' <;> simp [h, h2]
  | a :: b :: c :: m' =>
      simp only [List.cons_append, fenceWsTail, List.all_append]
      have : (['\n', '`', '`', '`'] : List Char).all isJsWs = false := by decide
      simp [this]

/-- Helper lemma: stripping the trailing fence from a payload followed
by the appended closing fence recovers exactly the payload. -/
theorem stripTrailFence_append (m : List Char) :
    stripTrailFence (m ++ ['\n', '`', '`', '`']) = m := by
  induction m with
  | nil => rfl
  | cons c m' ih =>
      have h1 : fenceWsTail (m' ++ ['\n', '`', '`', '`']) = false :=
        fenceWsTail_append_false m'
      have h2 : fenceWsTail (c :: (m' ++ ['\n', '`', '`', '`'])) = false := by
        simpa using fenceWsTail_append_false (c :: m')
      have h3 : fenceTailMatch (c :: (m' ++ ['\n', '`', '`', '`'])) = false := by
        simp only [fenceTailMatch, h1, h2, Bool.and_false, Bool.or_false]
      simp only [List.cons_append]
      simp [stripTrailFence, h3, ih]

/-- Helper lemma: a string fixed by `jsTrim` cannot start with
whitespace. -/
theorem trim_fix_head_not_ws (c : Char) (r : List Char)
    (h : jsTrim (c :: r) = c :: r) : isJsWs c = false := by
  by_contra hw
  rw [Bool.not_eq_false] at hw
  have h1 : (c :: r).dropWhile isJsWs = r.dropWhile isJsWs :=
    List.dropWhile_cons_of_pos hw
  have h2 : (jsTrim (c :: r)).length ≤ (r.dropWhile isJsWs).length := by
    unfold jsTrim
    rw [h1]
    calc ((r.dropWhile isJsWs).reverse.dropWhile isJsWs).reverse.length
        = ((r.dropWhile isJsWs).reverse.dropWhile isJsWs).length := by
          rw [List.length_reverse]
      _ ≤ (r.dropWhile isJsWs).reverse.length :=
          (List.dropWhile_sublist _).length_le
      _ = (r.dropWhile isJsWs).length := by rw [List.length_reverse]
  have h3 : (r.dropWhile isJsWs).length ≤ r.length :=
    (List.dropWhile_sublist _).length_le
  rw [h] at h2
  simp only [List.length_cons] at h2
  omega

/-- Helper lemma: appending anything to a trim-fixed, non-empty string
leaves nothing for a leading whitespace strip to remove. -/
theorem dropWhile_append_of_trim_fix (s t : List Char) (hne : s ≠ [])
    (hfix : jsTrim s = s) : (s ++ t).dropWhile isJsWs = s ++ t := by
  obtain ⟨c, r, rfl⟩ := List.exists_cons_of_ne_nil hne
  have hc := trim_fix_head_not_ws c r hfix
  rw [List.cons_append]
  exact List.dropWhile_cons_of_neg (by simp [hc])

/-- Helper lemma: the fenced string is already trimmed (it starts and
ends with a backtick). -/
theorem jsTrim_fenceWrap (s : List Char) : jsTrim (fenceWrap s) = fenceWrap s := by
  have hdrop : (fenceWrap s).dropWhile isJsWs = fenceWrap s := by
    rw [fenceWrap_eq]
    exact List.dropWhile_cons_of_neg (by decide)
  have h4 : (chars "\n```").reverse = ['`', '`', '`', '\n'] := rfl
  have hrev : (fenceWrap s).reverse = '`' :: '`' :: '`' :: '\n' ::
      (s.reverse ++ (chars "```json\n").reverse) := by
    simp [fenceWrap, List.reverse_append, h4]
  have hrevdrop : (fenceWrap s).reverse.dropWhile isJsWs = (fenceWrap s).reverse := by
    rw [hrev]
    exact List.dropWhile_cons_of_neg (by decide)
  unfold jsTrim
  rw [hdrop, hrevdrop, List.reverse_reverse]

/-- Helper lemma: the fenced string carries no byte-order mark. -/
theorem stripBOM_fenceWrap (s : List Char) : stripBOM (fenceWrap s) = fenceWrap s := by
  rw [fenceWrap_eq]
  rfl

/-- Helper lemma: stripping the opening fence of a wrapped payload
leaves the payload, the appended closing fence, and a leading
whitespace strip. -/
theorem stripLeadFence_fenceWrap (s : List Char) :
    stripLeadFence (fenceWrap s) = (s ++ ['\n', '`', '`', '`']).dropWhile isJsWs := by
  rw [fenceWrap_eq]
  rfl

/-- Helper lemma: on a trimmed non-empty payload, the strategy-2
cleaning pipeline inverts the code-fence wrapping exactly. -/
theorem strategy2Clean_fenceWrap (s : List Char) (hne : s ≠ [])
    (hfix : jsTrim s = s) : strategy2Clean (fenceWrap s) = s := by
  unfold strategy2Clean
  rw [jsTrim_fenceWrap, stripBOM_fenceWrap, stripLeadFence_fenceWrap,
    dropWhile_append_of_trim_fix s _ hne hfix, stripTrailFence_append, hfix]

/-- Helper lemma: the empty string is not valid JSON. -/
theorem jsonParse_nil : jsonParse [] = none := rfl

/-- C8: for every JSON array text `s` (trimmed, as an array literal is)
whose strict parse yields the array `v`, parse strategy 2 applied to
`s` wrapped in Markdown code fences recovers exactly `v`, the result of
strict JSON parsing of the unwrapped content. -/
theorem c8_strategy2_recovers_fenced_array (s : List Char) (v : List JsonVal)
    (hfix : jsTrim s = s) (hparse : jsonParse s = some (JsonVal.arr v)) :
    parseStrategy2 (fenceWrap s) = some v := by
  have hne : s ≠ [] := by
    intro h
    rw [h, jsonParse_nil] at hparse
    simp at hparse
  unfold parseStrategy2
  rw [strategy2Clean_fenceWrap s hne hfix, hparse]
  rfl

/-- C8 witness: the concrete array text `[true]` is trimmed, strictly
parses to the one-element array, and strategy 2 recovers it from the
fenced wrapping. -/
theorem c8_witness :
    jsTrim (chars "[true]") = chars "[true]" ∧
      parseStrategy2 (fenceWrap (chars "[true]")) = some [JsonVal.bool true] :=
  ⟨rfl, c8_strategy2_recovers_fenced_array (chars "[true]") [JsonVal.bool true] rfl rfl⟩

/-- Helper lemma: a serialized statistics record decodes back to
itself, so well-formed ledger blobs round-trip. -/
theorem decodeStats_statsToJson (st : SessionStats) :
    decodeStats (statsToJson st) = some st := by
  have h1 : getField (statsToJson st) (chars "documentsUploaded") =
      some (.num st.documentsUploaded) := rfl
  have h2 : getField (statsToJson st) (chars "totalStorageUsed") =
      some (.num st.totalStorageUsed) := rfl
  have h3 : getField (statsToJson st) (chars "sessionPrice") =
      some (.num st.sessionPrice) := rfl
  have h4 : getField (statsToJson st) (chars "sessionStartAt") =
      some (.num st.sessionStartAt) := rfl
  have h5 : getField (statsToJson st) (chars "sessionResetAt") =
      some (.num st.sessionResetAt) := rfl
  unfold decodeStats
  rw [h1, h2, h3, h4, h5]
  simp only [dateOfField]
  rw [if_pos]
  · simp [Rat.num_natCast, Int.toNat_natCast]
  · refine ⟨by positivity, Rat.den_natCast _, by positivity, Rat.den_natCast _⟩

/-- Helper lemma: reading a well-formed ledger blob either rolls it
over (when due) or returns it unchanged. -/
theorem getSessionStatsRaw_parsed (st : SessionStats) (now window : ℚ) :
    getSessionStatsRaw (.parsed (statsToJson st)) now window =
      if st.sessionResetAt ≤ now then
        (statsToJson (defaultStats now window),
          .parsed (statsToJson (defaultStats now window)))
      else (statsToJson st, .parsed (statsToJson st)) := rfl

/-- C3: when the stored reset timestamp is due (`resetAt ≤ now`) and
the configured window is positive, the next `getSessionStats` read
returns the zeroed record (cost 0, documents 0) with `resetAt` equal to
`now + window` and strictly later than the stored one, and persists that
record in the same read. -/
theorem c3_rollover_on_read (st : SessionStats) (now window : ℚ)
    (hdue : st.sessionResetAt ≤ now) (hw : 0 < window) :
    getSessionStatsRaw (.parsed (statsToJson st)) now window =
      (statsToJson (defaultStats now window),
        .parsed (statsToJson (defaultStats now window)))
    ∧ (defaultStats now window).sessionPrice = 0
    ∧ (defaultStats now window).documentsUploaded = 0
    ∧ st.sessionResetAt < (defaultStats now window).sessionResetAt
    ∧ (defaultStats now window).sessionResetAt = now + window := by
  refine ⟨?_, rfl, rfl, ?_, rfl⟩
  · rw [getSessionStatsRaw_parsed, if_pos hdue]
  · simp only [defaultStats, getSessionResetTime]
    linarith

/-- C3 witness: a record with price 5/2, three documents and reset
time 10, read at time 10 with a 24-hour window, rolls over. -/
theorem c3_witness :
    ((10 : ℚ) ≤ 10 ∧ (0 : ℚ) < 24) ∧
      (getSessionStatsRaw
          (.parsed (statsToJson ⟨3, 7, 5/2, 0, 10⟩)) 10 24 =
        (statsToJson (defaultStats 10 24),
          .parsed (statsToJson (defaultStats 10 24)))
      ∧ (defaultStats 10 24).sessionPrice = 0
      ∧ (defaultStats 10 24).documentsUploaded = 0
      ∧ (10 : ℚ) < (defaultStats 10 24).sessionResetAt
      ∧ (defaultStats 10 24).sessionResetAt = 10 + 24) :=
  ⟨⟨by norm_num, by norm_num⟩,
    c3_rollover_on_read ⟨3, 7, 5/2, 0, 10⟩ 10 24 (by norm_num) (by norm_num)⟩

/-- C9 counterexample: the blob `{}` is valid JSON, so the read does not
fall back to the defaults — it returns the raw empty object, which is
not a well-formed statistics record (decoding fails). -/
theorem c9_counterexample :
    (getSessionStatsRaw (.parsed (JsonVal.obj [])) 0 24).1 = JsonVal.obj []
    ∧ decodeStats (JsonVal.obj []) = none := ⟨rfl, rfl⟩

/-- C9 amended: the read never throws (it is total in the model) and
returns the default zeroed record when the key is missing, when the
blob is not valid JSON, or when it parses to `null`; a well-formed
blob always yields a well-formed record — but a parseable blob of the
wrong shape is returned as-is, unchecked (see the counterexample). -/
theorem c9_read_fallback_behaviour (now window : ℚ) :
    (getSessionStatsRaw .missing now window).1 = statsToJson (defaultStats now window)
    ∧ (getSessionStatsRaw .invalid now window).1 = statsToJson (defaultStats now window)
    ∧ (getSessionStatsRaw (.parsed .null) now window).1 =
        statsToJson (defaultStats now window)
    ∧ decodeStats (statsToJson (defaultStats now window)) =
        some (defaultStats now window)
    ∧ ∀ st : SessionStats,
        (decodeStats
          ((getSessionStatsRaw (.parsed (statsToJson st)) now window).1)).isSome =
          true := by
  refine ⟨rfl, rfl, rfl, decodeStats_statsToJson _, ?_⟩
  intro st
  rw [getSessionStatsRaw_parsed]
  split
  · simp [decodeStats_statsToJson]
  · simp [decodeStats_statsToJson]

/-- C5: document classification is exactly the spec's ordered-rule
classifier — the rules fire in the precedence order transcript,
prior_testimony, exhibit, case_file, the first hit wins, and the
default is `other`.  Both sides are pure functions of the
(filename, content) pair, so the same inputs always yield the same
`DocumentType`. -/
theorem c5_classification_is_first_match (f : List Char) (c : Option (List Char)) :
    detectDocumentType f c = classifyFirstMatch specClassRules DocumentType.other f c :=
  rfl

/-- C2: evaluating both upload handlers at the claim's scenario
(`maxDocumentsPerSession = 1`, an empty session, one batch of two small
files) shows the limit being bypassed: both tools add TWO documents and
record no document-limit message for the second file.  The testimony
handler has no per-file count check at all; the deposition handler's
per-file check reads the stale closure count (0 throughout the batch),
so it never fires. -/
theorem c2_batch_limit_bypass :
    depoHandleFileUpload 0 1 10485760 [⟨chars "a.txt", 1⟩, ⟨chars "b.txt", 1⟩] =
      ⟨2, [], none⟩
    ∧ testimonyHandleFileUpload 0 1 10485760 [⟨chars "a.txt", 1⟩, ⟨chars "b.txt", 1⟩] =
      ⟨2, [], none⟩ :=
  ⟨rfl, rfl⟩

/-- C6 counterexample: a deposition upload whose file exceeds the size
limit while the session already sits at the document limit surfaces the
document-count reason, not the size reason — the checks do not run in
the claimed size-then-count-then-price order. -/
theorem c6_counterexample :
    depoHandleFileUpload 1 1 5 [⟨chars "big.txt", 10⟩] =
      ⟨1, [UploadMsg.docLimitBatch], some LimitKind.documentLimit⟩
    ∧ 5 < (10 : Nat) :=
  ⟨rfl, by norm_num⟩

/-- C6 amended: in the live upload handlers the document-count check
runs before the file-size check and its reason is surfaced first; the
price limit is not part of the upload path at all.  In the deprecated
OCR limit service the combined check runs size, then count, then page
limits, first failure surfaced. -/
theorem c6_upload_check_order (init maxD maxS : Nat) (f : FileIn)
    (limits : OcrLimits) (usage : OcrUsage) (fileSize pages : Nat) :
    (maxD ≤ init →
        depoHandleFileUpload init maxD maxS [f] =
          ⟨init, [.docLimitBatch], some .documentLimit⟩
      ∧ testimonyHandleFileUpload init maxD maxS [f] =
          ⟨init, [], some .documentLimit⟩)
    ∧ (init < maxD → maxS < f.size →
        depoHandleFileUpload init maxD maxS [f] = ⟨init, [.fileTooBig f.name], none⟩
      ∧ testimonyHandleFileUpload init maxD maxS [f] =
          ⟨init, [.fileTooBig f.name], none⟩)
    ∧ (limits.maxFileSize < fileSize →
        checkUploadAllowed limits usage fileSize pages = ⟨false, some .fileSize⟩)
    ∧ (fileSize ≤ limits.maxFileSize →
        limits.maxDocumentsPerSession ≤ usage.sessionDocuments →
        checkUploadAllowed limits usage fileSize pages = ⟨false, some .docCount⟩) := by
  refine ⟨fun h => ⟨?_, ?_⟩, fun h1 h2 => ⟨?_, ?_⟩, fun h => ?_, fun h1 h2 => ?_⟩
  · simp [depoHandleFileUpload, h]
  · simp [testimonyHandleFileUpload, h]
  · have hn : ¬ maxD ≤ init := by omega
    simp [depoHandleFileUpload, depoUploadLoop, hn, h2]
  · have hn : ¬ maxD ≤ init := by omega
    simp [testimonyHandleFileUpload, testimonyUploadLoop, hn, h2]
  · simp [checkUploadAllowed, checkFileSizeAllowed, h]
  · have hn : ¬ limits.maxFileSize < fileSize := by omega
    simp [checkUploadAllowed, checkFileSizeAllowed, checkDocumentUploadAllowed, hn, h2]

/-- C6 witness: concrete evaluations of every branch of the amended
ordering statement. -/
theorem c6_witness :
    depoHandleFileUpload 2 1 5 [⟨chars "f.txt", 3⟩] =
      ⟨2, [.docLimitBatch], some .documentLimit⟩
    ∧ depoHandleFileUpload 0 1 5 [⟨chars "f.txt", 9⟩] =
      ⟨0, [.fileTooBig (chars "f.txt")], none⟩
    ∧ checkUploadAllowed ⟨5, 1, 10, 100⟩ ⟨0, 0⟩ 9 1 = ⟨false, some .fileSize⟩
    ∧ checkUploadAllowed ⟨5, 1, 10, 100⟩ ⟨1, 0⟩ 3 1 = ⟨false, some .docCount⟩ :=
  ⟨((c6_upload_check_order 2 1 5 ⟨chars "f.txt", 3⟩ ⟨5, 1, 10, 100⟩ ⟨0, 0⟩ 9 1).1
      (by norm_num)).1,
   ((c6_upload_check_order 0 1 5 ⟨chars "f.txt", 9⟩ ⟨5, 1, 10, 100⟩ ⟨0, 0⟩ 9 1).2.1
      (by norm_num) (by norm_num)).1,
   (c6_upload_check_order 0 1 5 ⟨chars "f.txt", 9⟩ ⟨5, 1, 10, 100⟩ ⟨0, 0⟩ 9 1).2.2.1
      (by norm_num),
   (c6_upload_check_order 0 1 5 ⟨chars "f.txt", 9⟩ ⟨5, 1, 10, 100⟩ ⟨1, 0⟩ 3 1).2.2.2
      (by norm_num) (by norm_num)⟩

/-- Helper lemma: the category validator only ever returns members of
the category enumeration. -/
theorem validateCategory_mem (x : List Char) : validateCategory x ∈ validCategories := by
  unfold validateCategory
  split
  · next h => exact List.mem_of_elem_eq_true h
  · decide

/-- Helper lemma: the difficulty validator only ever returns members of
the difficulty enumeration. -/
theorem validateDifficulty_mem (x : List Char) :
    validateDifficulty x ∈ validDifficulties := by
  unfold validateDifficulty
  split
  · next h => exact List.mem_of_elem_eq_true h
  · decide

/-- Helper lemma: every static fallback question carries a category and
difficulty from the enumerations. -/
theorem fallback_all_valid (w : List Char) (docs : List DocIn) :
    ∀ q ∈ generateFallbackQuestions w docs,
      q.category ∈ validCategories ∧ q.difficulty ∈ validDifficulties := by
  have hall : (generateFallbackQuestions w docs).all
      (fun q => validCategories.contains q.category &&
        validDifficulties.contains q.difficulty) = true := rfl
  intro q hq
  have hpq := List.all_eq_true.mp hall q hq
  rw [Bool.and_eq_true] at hpq
  exact ⟨List.mem_of_elem_eq_true hpq.1, List.mem_of_elem_eq_true hpq.2⟩

/-- Helper lemma: the fallback set satisfies the C10 bound and
enumeration property. -/
theorem fallback_goal (w : List Char) (docs : List DocIn) :
    (generateFallbackQuestions w docs).length ≤ 20 ∧
      ∀ q ∈ generateFallbackQuestions w docs,
        q.category ∈ validCategories ∧ q.difficulty ∈ validDifficulties :=
  ⟨le_of_eq (show (generateFallbackQuestions w docs).length = 20 from rfl),
    fallback_all_valid w docs⟩

/-- Helper lemma: the capped, coerced mapping of parsed items satisfies
the C10 bound and enumeration property. -/
theorem mapped_goal (items : List JsonVal) :
    ((items.take 20).map buildQuestion).length ≤ 20 ∧
      ∀ q ∈ (items.take 20).map buildQuestion,
        q.category ∈ validCategories ∧ q.difficulty ∈ validDifficulties := by
  constructor
  · rw [List.length_map, List.length_take]
    exact Nat.min_le_left _ _
  · intro q hq
    rw [List.mem_map] at hq
    obtain ⟨x, -, rfl⟩ := hq
    exact ⟨validateCategory_mem _, validateDifficulty_mem _⟩

/-- C10: every success response of the testimony generate-questions
route carries at most twenty questions, each with a category in
{timeline, credibility, inconsistency, foundation, impeachment,
general} and a difficulty in {easy, medium, hard} — values outside the
enumerations are coerced to `general` and `medium` by the validators. -/
theorem c10_route_output_valid (w c : List Char) (docs : List DocIn)
    (llm : LlmOutcome) (ppk : ℚ) (qs : List CrossExamQuestion) (cost : ℚ)
    (chp : Nat) (fb : Bool)
    (h : generateQuestionsPOST w c docs llm ppk = .ok qs cost chp fb) :
    qs.length ≤ 20 ∧
      ∀ q ∈ qs, q.category ∈ validCategories ∧ q.difficulty ∈ validDifficulties := by
  unfold generateQuestionsPOST at h
  split at h
  · exact absurd h (by simp)
  · split at h
    · exact absurd h (by simp)
    · cases llm with
      | fail =>
          rw [GenResponse.ok.injEq] at h
          obtain ⟨hq, -, -, -⟩ := h
          subst hq
          exact fallback_goal w docs
      | ok content =>
          by_cases hce : content.isEmpty
          · simp only [hce, if_true, List.isEmpty_nil] at h
            rw [GenResponse.ok.injEq] at h
            obtain ⟨hq, -, -, -⟩ := h
            subst hq
            exact fallback_goal w docs
          · cases hpr : parseJSONResponse content with
            | none =>
                simp only [hce, Bool.false_eq_true, if_false, hpr, List.isEmpty_nil,
                  if_true] at h
                rw [GenResponse.ok.injEq] at h
                obtain ⟨hq, -, -, -⟩ := h
                subst hq
                exact fallback_goal w docs
            | some items =>
                by_cases hil : 0 < items.length
                · cases hbq : buildQuestions (items.take 20) with
                  | none =>
                      simp only [hce, Bool.false_eq_true, if_false, hpr, hil, if_true,
                        hbq] at h
                      rw [GenResponse.ok.injEq] at h
                      obtain ⟨hq, -, -, -⟩ := h
                      subst hq
                      exact fallback_goal w docs
                  | some qs2 =>
                      simp only [hce, Bool.false_eq_true, if_false, hpr, hil, if_true,
                        hbq] at h
                      have hqs2 : qs2 = (items.take 20).map buildQuestion := by
                        unfold buildQuestions at hbq
                        split at hbq
                        · exact absurd hbq (by simp)
                        · exact (Option.some.injEq _ _ ▸ hbq).symm
                      by_cases hqe : qs2.isEmpty
                      · rw [if_pos hqe, GenResponse.ok.injEq] at h
                        obtain ⟨hq, -, -, -⟩ := h
                        subst hq
                        exact fallback_goal w docs
                      · rw [if_neg hqe, GenResponse.ok.injEq] at h
                        obtain ⟨hq, -, -, -⟩ := h
                        subst hq
                        rw [hqs2]
                        exact mapped_goal items
                · simp only [hce, Bool.false_eq_true, if_false, hpr, hil, if_false,
                    List.isEmpty_nil, if_true] at h
                  rw [GenResponse.ok.injEq] at h
                  obtain ⟨hq, -, -, -⟩ := h
                  subst hq
                  exact fallback_goal w docs

/-- C10 witness: the route at a concrete failing call returns the
twenty-question fallback set, which satisfies the bound and the
enumeration property. -/
theorem c10_witness :
    (generateFallbackQuestions (chars "w") [⟨chars "d.txt", none⟩]).length ≤ 20 ∧
      ∀ q ∈ generateFallbackQuestions (chars "w") [⟨chars "d.txt", none⟩],
        q.category ∈ validCategories ∧ q.difficulty ∈ validDifficulties :=
  c10_route_output_valid (chars "w") (chars "c") [⟨chars "d.txt", none⟩]
    .fail 1 (generateFallbackQuestions (chars "w") [⟨chars "d.txt", none⟩]) 0 0 true rfl

/-- C7: whenever the remote LLM call throws (network error) or its
response defeats every parse strategy, the testimony generate-questions
route answers 200 with exactly the static twenty-question fallback set
and `usedFallback = true` — no hard failure reaches the caller for this
case. -/
theorem c7_fallback_on_llm_failure (w c : List Char) (docs : List DocIn)
    (llm : LlmOutcome) (ppk : ℚ)
    (hw : w ≠ []) (hc : c ≠ []) (hd : docs ≠ [])
    (hfail : llm = .fail ∨ ∃ s, llm = .ok s ∧ parseJSONResponse s = none) :
    ∃ cost charsP,
      generateQuestionsPOST w c docs llm ppk =
        .ok (generateFallbackQuestions w docs) cost charsP true
    ∧ (generateFallbackQuestions w docs).length = 20 := by
  have hw' : w.isEmpty = false := by simp [hw]
  have hc' : c.isEmpty = false := by simp [hc]
  have hd' : docs.isEmpty = false := by simp [hd]
  have hlen : (generateFallbackQuestions w docs).length = 20 := rfl
  rcases hfail with rfl | ⟨s, rfl, hp⟩
  · refine ⟨0, 0, ?_, hlen⟩
    simp [generateQuestionsPOST, hw', hc', hd']
  · refine ⟨(((getQuestionGenerationPrompt w ++ userPromptFor c w docs ++ s).length : ℚ)
        / 1000 * ppk),
      (getQuestionGenerationPrompt w ++ userPromptFor c w docs ++ s).length, ?_, hlen⟩
    by_cases hs : s.isEmpty
    · simp [generateQuestionsPOST, hw', hc', hd', hs]
    · simp [generateQuestionsPOST, hw', hc', hd', hs, hp]

/-- C7 witness: the scenario of the claim — a session for Jane Doe in
Doe v. Roe with one uploaded text file and a failing network call —
returns the twenty fallback questions with the fallback flag set. -/
theorem c7_witness :
    (chars "Jane Doe" ≠ [] ∧ chars "Doe v. Roe" ≠ [] ∧
        ([⟨chars "notes.txt", some (chars "k")⟩] : List DocIn) ≠ []) ∧
      ∃ cost charsP,
        generateQuestionsPOST (chars "Jane Doe") (chars "Doe v. Roe")
            [⟨chars "notes.txt", some (chars "k")⟩] .fail (1/2000) =
          .ok (generateFallbackQuestions (chars "Jane Doe")
            [⟨chars "notes.txt", some (chars "k")⟩]) cost charsP true
      ∧ (generateFallbackQuestions (chars "Jane Doe")
          [⟨chars "notes.txt", some (chars "k")⟩]).length = 20 :=
  ⟨⟨by decide, by decide, by decide⟩,
    c7_fallback_on_llm_failure (chars "Jane Doe") (chars "Doe v. Roe")
      [⟨chars "notes.txt", some (chars "k")⟩] .fail (1/2000)
      (by decide) (by decide) (by decide) (Or.inl rfl)⟩

/-- Helper lemma: whatever the generate-questions route answers, the
client never enters the price-limit-denied state, because no response
of the route carries the `limitReached` field the client tests. -/
theorem client_never_price_denied (stats : SessionStats) (resp : GenResponse) :
    isDeniedPrice (clientHandleGenerateQuestions stats resp).1 = false := by
  cases resp with
  | badRequest m => rfl
  | serverError => rfl
  | ok qs cost chp fb =>
      simp only [clientHandleGenerateQuestions]
      split <;> rfl

/-- Helper lemma: on an unparseable model response the route answers
with the fallback set and the character-count cost. -/
theorem post_parse_fail_eq (w c : List Char) (docs : List DocIn) (s : List Char)
    (ppk : ℚ) (hw' : w.isEmpty = false) (hc' : c.isEmpty = false)
    (hd' : docs.isEmpty = false) (hp : parseJSONResponse s = none) :
    generateQuestionsPOST w c docs (.ok s) ppk =
      .ok (generateFallbackQuestions w docs)
        (((getQuestionGenerationPrompt w ++ userPromptFor c w docs ++ s).length : ℚ)
          / 1000 * ppk)
        ((getQuestionGenerationPrompt w ++ userPromptFor c w docs ++ s).length) true := by
  by_cases hs : s.isEmpty
  · simp [generateQuestionsPOST, hw', hc', hd', hs]
  · simp [generateQuestionsPOST, hw', hc', hd', hs, hp]

/-- C1: the code performs no session price check at all.  First
conjunct: for every route response and every ledger state the client
never reaches the price-denied state, so the claimed "deny iff
S + D > sessionPriceLimit" evaluator does not exist in the pipeline.
Remaining conjuncts evaluate the claim's own scenario — ledger cost
S = 0.02, limit 0.01, a generate-questions call with positive cost
delta D — and show the operation succeeds and records the cost even
though the spec's evaluator (`specPriceCheckDenies`) would deny it. -/
theorem c1_price_limit_never_enforced :
    (∀ (stats : SessionStats) (resp : GenResponse),
        isDeniedPrice (clientHandleGenerateQuestions stats resp).1 = false)
    ∧ isSuccessOutcome
        (clientHandleGenerateQuestions ⟨0, 0, 2/100, 0, 24⟩
          (generateQuestionsPOST (chars "Jane Doe") (chars "Doe v. Roe")
            [⟨chars "notes.txt", some (chars "k")⟩] (.ok (chars "y")) (1/2000))).1 = true
    ∧ (clientHandleGenerateQuestions ⟨0, 0, 2/100, 0, 24⟩
          (generateQuestionsPOST (chars "Jane Doe") (chars "Doe v. Roe")
            [⟨chars "notes.txt", some (chars "k")⟩] (.ok (chars "y")) (1/2000))).2.sessionPrice
        > 2/100
    ∧ specPriceCheckDenies (2/100)
        ((clientHandleGenerateQuestions ⟨0, 0, 2/100, 0, 24⟩
          (generateQuestionsPOST (chars "Jane Doe") (chars "Doe v. Roe")
            [⟨chars "notes.txt", some (chars "k")⟩] (.ok (chars "y")) (1/2000))).2.sessionPrice
          - 2/100) (1/100) = true := by
  have hpost := post_parse_fail_eq (chars "Jane Doe") (chars "Doe v. Roe")
    [⟨chars "notes.txt", some (chars "k")⟩] (chars "y") (1/2000) rfl rfl rfl rfl
  have hK : (getQuestionGenerationPrompt (chars "Jane Doe") ++
      userPromptFor (chars "Doe v. Roe") (chars "Jane Doe")
        [⟨chars "notes.txt", some (chars "k")⟩] ++ chars "y").length = 140 := rfl
  rw [hK] at hpost
  have hcost : ((140 : ℚ) / 1000 * (1/2000)) ≠ 0 := by norm_num
  have hfb : (generateFallbackQuestions (chars "Jane Doe")
      [⟨chars "notes.txt", some (chars "k")⟩]).isEmpty = false := rfl
  refine ⟨client_never_price_denied, ?_, ?_, ?_⟩
  · rw [hpost]
    simp only [clientHandleGenerateQuestions, if_pos hcost, hfb]
    rfl
  · rw [hpost]
    simp only [clientHandleGenerateQuestions, if_pos hcost, hfb]
    norm_num
  · rw [hpost]
    simp only [clientHandleGenerateQuestions, if_pos hcost, hfb]
    simp only [specPriceCheckDenies]
    norm_num

/-- Helper lemma: after deleting a session id, the store no longer
resolves that id. -/
theorem tStoreGet_deleteSession (id : Nat) (store : TStore) :
    tStoreGet (deleteSession id store) id = none := by
  unfold tStoreGet deleteSession
  induction store with
  | nil => rfl
  | cons kv rest ih =>
      cases h : kv.1 == id with
      | true => simp [List.filter_cons, h, ih]
      | false => simp [List.filter_cons, h, List.find?_cons, ih]

/-- C4 counterexample: a deposition reset returns the wizard to setup
and clears the current-session pointer, but the persisted session
record under the session id (here 7) is still in the store afterwards —
the reset does not clear all persisted state for that id. -/
theorem c4_counterexample :
    (dStoreGet
        (resetToSetupDeposition
          ⟨some ⟨7, chars "John Smith", chars "Smith v. ABC", none, []⟩, .documents,
            chars "John Smith", chars "Smith v. ABC", [], none, none, 0, 0, [], none, none⟩
          [(7, ⟨7, chars "John Smith", chars "Smith v. ABC", none, []⟩)]
          (some 7) (.parsed (statsToJson ⟨0, 0, 0, 0, 100⟩)) 0 24).2.1 7).isSome = true
    ∧ (resetToSetupDeposition
          ⟨some ⟨7, chars "John Smith", chars "Smith v. ABC", none, []⟩, .documents,
            chars "John Smith", chars "Smith v. ABC", [], none, none, 0, 0, [], none, none⟩
          [(7, ⟨7, chars "John Smith", chars "Smith v. ABC", none, []⟩)]
          (some 7) (.parsed (statsToJson ⟨0, 0, 0, 0, 100⟩)) 0 24).2.2.1 = none
    ∧ (resetToSetupDeposition
          ⟨some ⟨7, chars "John Smith", chars "Smith v. ABC", none, []⟩, .documents,
            chars "John Smith", chars "Smith v. ABC", [], none, none, 0, 0, [], none, none⟩
          [(7, ⟨7, chars "John Smith", chars "Smith v. ABC", none, []⟩)]
          (some 7) (.parsed (statsToJson ⟨0, 0, 0, 0, 100⟩)) 0 24).1.currentStep = .setup :=
  ⟨rfl, rfl, rfl⟩

/-- C4 amended: both resets return the wizard to setup, clear the
in-memory state, and leave the usage-ledger record unchanged (no
rollover being due); the testimony reset also deletes the persisted
session record for the session id, while the deposition reset removes
only the current-session pointer and leaves the persisted record in
place. -/
theorem c4_reset_effects (tst : TState) (ts : TSession) (tstore : TStore)
    (dst : DState) (dstore : DStore) (ptr : Option Nat) (st : SessionStats)
    (now window : ℚ) (hsess : tst.session = some ts)
    (hnotdue : now < st.sessionResetAt) :
    ((resetToSetupTestimony tst tstore (.parsed (statsToJson st)) now window).1.currentStep
        = .setup
    ∧ (resetToSetupTestimony tst tstore (.parsed (statsToJson st)) now window).1.session
        = none
    ∧ tStoreGet
        (resetToSetupTestimony tst tstore (.parsed (statsToJson st)) now window).2.1 ts.id
        = none
    ∧ (resetToSetupTestimony tst tstore (.parsed (statsToJson st)) now window).2.2
        = .parsed (statsToJson st)
    ∧ (resetToSetupTestimony tst tstore (.parsed (statsToJson st)) now window).1.priceUsed
        = st.sessionPrice)
    ∧ ((resetToSetupDeposition dst dstore ptr (.parsed (statsToJson st)) now window).1.currentStep
        = .setup
    ∧ (resetToSetupDeposition dst dstore ptr (.parsed (statsToJson st)) now window).1.session
        = none
    ∧ (resetToSetupDeposition dst dstore ptr (.parsed (statsToJson st)) now window).2.1
        = dstore
    ∧ (resetToSetupDeposition dst dstore ptr (.parsed (statsToJson st)) now window).2.2.1
        = none
    ∧ (resetToSetupDeposition dst dstore ptr (.parsed (statsToJson st)) now window).2.2.2
        = .parsed (statsToJson st)) := by
  have hread : getSessionStatsRaw (.parsed (statsToJson st)) now window =
      (statsToJson st, .parsed (statsToJson st)) := by
    rw [getSessionStatsRaw_parsed, if_neg (not_le.mpr hnotdue)]
  have hdisp : displayCounters (statsToJson st) now window =
      (st.sessionPrice, st.documentsUploaded) := by
    simp [displayCounters, decodeStats_statsToJson]
  constructor <;> (repeat' apply And.intro) <;>
    simp [resetToSetupTestimony, resetToSetupDeposition, hsess, hread, hdisp,
      tStoreGet_deleteSession]

/-- C4 witness: a concrete testimony reset deletes the record for id 3
and preserves the ledger; a concrete deposition reset leaves the store
untouched. -/
theorem c4_witness :
    ((⟨some ⟨3, chars "W", chars "C", [], [], []⟩, .review, chars "W", chars "C",
        0, [], none, false, none, none, 0, 0⟩ : TState).session
      = some ⟨3, chars "W", chars "C", [], [], []⟩ ∧ (0 : ℚ) < 50) ∧
    (tStoreGet
        (resetToSetupTestimony
          ⟨some ⟨3, chars "W", chars "C", [], [], []⟩, .review, chars "W", chars "C",
            0, [], none, false, none, none, 0, 0⟩
          [(3, ⟨3, chars "W", chars "C", [], [], []⟩)]
          (.parsed (statsToJson ⟨1, 2, 3, 0, 50⟩)) 0 24).2.1 3 = none
      ∧ (resetToSetupTestimony
          ⟨some ⟨3, chars "W", chars "C", [], [], []⟩, .review, chars "W", chars "C",
            0, [], none, false, none, none, 0, 0⟩
          [(3, ⟨3, chars "W", chars "C", [], [], []⟩)]
          (.parsed (statsToJson ⟨1, 2, 3, 0, 50⟩)) 0 24).2.2
        = .parsed (statsToJson ⟨1, 2, 3, 0, 50⟩)) :=
  ⟨⟨rfl, by norm_num⟩,
    (c4_reset_effects
        ⟨some ⟨3, chars "W", chars "C", [], [], []⟩, .review, chars "W", chars "C",
          0, [], none, false, none, none, 0, 0⟩
        ⟨3, chars "W", chars "C", [], [], []⟩
        [(3, ⟨3, chars "W", chars "C", [], [], []⟩)]
        ⟨none, .setup, [], [], [], none, none, 0, 0, [], none, none⟩
        [] none ⟨1, 2, 3, 0, 50⟩ 0 24 rfl (by norm_num)).1.2.2.1,
     (c4_reset_effects
        ⟨some ⟨3, chars "W", chars "C", [], [], []⟩, .review, chars "W", chars "C",
          0, [], none, false, none, none, 0, 0⟩
        ⟨3, chars "W", chars "C", [], [], []⟩
        [(3, ⟨3, chars "W", chars "C", [], [], []⟩)]
        ⟨none, .setup, [], [], [], none, none, 0, 0, [], none, none⟩
        [] none ⟨1, 2, 3, 0, 50⟩ 0 24 rfl (by norm_num)).1.2.2.2.1⟩
